import Mathlib

/-!
Verification of the transcript-generator pipeline (`app.py`).

The Python source is shallowly embedded below.  External effects
(environment variable, HTTP HEAD probe, streaming GET download, the Groq
transcription call) are passed in explicitly as oracle values describing
the outcome the outside world would produce; the control flow that
consumes them is translated statement-by-statement from the source.
Strings are ASCII in every scenario of interest, so character-level
models of Python's `str.lower`, `str.strip`, `str.startswith` and
slicing coincide with the byte-level originals.
-/

namespace App

/-- Python `s.lower()` restricted to ASCII (the only case exercised). -/
def lowerStr (s : String) : String := String.mk (s.data.map Char.toLower)

/-- Python `s.strip()` with the ASCII whitespace subset. -/
def pyStrip (s : String) : String :=
  String.mk (((s.data.dropWhile Char.isWhitespace).reverse.dropWhile Char.isWhitespace).reverse)

/-- Python `s.startswith(pre)`. -/
def strStartsWith (s pre : String) : Bool := pre.data.isPrefixOf s.data

/-- Python character slicing `s[n:]` (ASCII, so char index = byte index). -/
def strDropChars (s : String) (n : Nat) : String := String.mk (s.data.drop n)

/-- Index of the last occurrence of `c` in `cs` (Python `str.rfind`), if any. -/
def lastIdxOf (c : Char) (cs : List Char) : Option Nat :=
  match cs.reverse.findIdx? (fun x => x == c) with
  | none => none
  | some k => some (cs.length - 1 - k)

/-- Substring containment at the character level (Python `pat in s`). -/
def listInfix (pat : List Char) : List Char → Bool
  | [] => pat.isEmpty
  | c :: tail => pat.isPrefixOf (c :: tail) || listInfix pat tail

/-- Whether the string `s` mentions `pat` as a substring. -/
def mentions (s pat : String) : Bool := listInfix pat.data s.data

/-- Python `os.path.basename`: everything after the last `/`. -/
def basename (p : String) : String :=
  String.mk (p.data.drop (match lastIdxOf '/' p.data with | none => 0 | some i => i + 1))

/-- Python `os.path.splitext` (posix): split at the last dot of the final
path segment, unless every character of the segment before that dot is
itself a dot. -/
def splitext (p : String) : String × String :=
  let cs := p.data
  match lastIdxOf '.' cs with
  | none => (p, "")
  | some d =>
    let seg : Nat := match lastIdxOf '/' cs with | none => 0 | some i => i + 1
    if seg ≤ d ∧ ((cs.drop seg).take (d - seg)).any (fun c => c != '.') then
      (String.mk (cs.take d), String.mk (cs.drop d))
    else (p, "")

/-- Result of `urllib.parse.urlparse` restricted to the components the
program reads (`scheme`, `netloc`, `path`). -/
structure ParsedUrl where
  scheme : String
  netloc : String
  path : String
deriving DecidableEq

/-- Characters allowed in a URL scheme (`urllib.parse.scheme_chars`). -/
def isSchemeChar (c : Char) : Bool :=
  c.isAlpha || c.isDigit || c == '+' || c == '-' || c == '.'

/-- Longest strict head of the list before the first character satisfying `p`. -/
def takeUntil (p : Char → Bool) : List Char → List Char
  | [] => []
  | c :: cs => if p c then [] else c :: takeUntil p cs

/-- Remainder of the list starting at the first character satisfying `p`. -/
def dropUntil (p : Char → Bool) : List Char → List Char
  | [] => []
  | c :: cs => if p c then c :: cs else dropUntil p cs

/-- Delimiters that terminate the netloc component of a URL. -/
def netlocEnd (c : Char) : Bool := c == '/' || c == '?' || c == '#'

/-- Model of `urllib.parse.urlparse` (CPython `urlsplit`): peel off a
well-formed `scheme:`, then a `//netloc`, then strip fragment and query
to leave the path. -/
def urlparse (url : String) : ParsedUrl :=
  let cs := url.data
  let sr : List Char × List Char :=
    match cs.findIdx? (fun c => c == ':') with
    | some i =>
      if 0 < i && (cs.take i).all isSchemeChar && (cs.headD ' ').isAlpha then
        (cs.take i, cs.drop (i + 1))
      else ([], cs)
    | none => ([], cs)
  let rest := sr.2
  let nr : List Char × List Char :=
    if rest.take 2 == ['/', '/'] then
      (takeUntil netlocEnd (rest.drop 2), dropUntil netlocEnd (rest.drop 2))
    else ([], rest)
  let pathCs := takeUntil (fun c => c == '?') (takeUntil (fun c => c == '#') nr.2)
  { scheme := String.mk (sr.1.map Char.toLower)
    netloc := String.mk nr.1
    path := String.mk pathCs }

/-- Python rendering `f"{size / (1024 * 1024):.1f}"` of a byte count as
megabytes with one decimal.  For sizes below 2^53 the float division by
2^20 is exact, so the printed digit string is the exact dyadic value
rounded to one decimal, ties to even. -/
def fmtMB1 (size : Nat) : String :=
  let t := size * 10
  let q := t / (1024 * 1024)
  let r := t % (1024 * 1024)
  let rounded :=
    if 2 * r < 1024 * 1024 then q
    else if 2 * r > 1024 * 1024 then q + 1
    else if q % 2 == 0 then q else q + 1
  toString (rounded / 10) ++ "." ++ toString (rounded % 10)

/-- The fixed extension allow-list of `app.py` (`valid_extensions`). -/
def valid_extensions : List String :=
  [".mp3", ".mp4", ".mpeg", ".mpga", ".m4a", ".wav", ".webm", ".flac", ".ogg", ".aac"]

/-- An uploaded (gradio) file handle: its `.name` path and the byte count
`os.path.getsize` reports for it. -/
structure LocalFile where
  name : String
  size : Nat
deriving DecidableEq

/-- Embedding of `validate_file` (app.py lines 9-26): size ceiling first,
then the extension allow-list. -/
def validate_file (file : Option LocalFile) : Bool × String :=
  match file with
  | none => (false, "No file uploaded")
  | some f =>
    if f.size > 25 * 1024 * 1024 then
      (false, "File size (" ++ fmtMB1 f.size ++ "MB) exceeds 25MB limit")
    else
      let ext := lowerStr (splitext f.name).2
      if !(valid_extensions.contains ext) then
        (false, "Invalid file type. Supported formats: " ++ String.intercalate ", " valid_extensions)
      else (true, "File is valid")

/-- Outcome of the `requests.head` probe: a status code together with the
optional numeric `content-length` header, or a raised
`requests.exceptions.RequestException`. -/
inductive ProbeOutcome where
  | success (statusCode : Nat) (contentLength : Option Nat)
  | reqException (msg : String)
deriving DecidableEq

/-- Embedding of `validate_url_file` (app.py lines 28-65).  The second
component of the result records whether the HEAD probe was actually
issued on this path. -/
def validate_url_file (url : String) (probe : ProbeOutcome) : (Bool × String) × Bool :=
  if url == "" || pyStrip url == "" then ((false, "No URL provided"), false)
  else
    let p := urlparse url
    if p.scheme == "" || p.netloc == "" then ((false, "Invalid URL format"), false)
    else if !(p.scheme == "http" || p.scheme == "https") then
      ((false, "URL must start with http:// or https://"), false)
    else
      let ext := lowerStr (splitext p.path).2
      if !(valid_extensions.contains ext) then
        ((false, "Invalid file type in URL. Supported formats: " ++
          String.intercalate ", " valid_extensions), false)
      else
        match probe with
        | .reqException m => ((false, "Error accessing URL: " ++ m), true)
        | .success code contentLength =>
          if !(code == 200) then
            ((false, "Could not access URL (HTTP " ++ toString code ++ ")"), true)
          else
            match contentLength with
            | some n =>
              if n > 25 * 1024 * 1024 then
                ((false, "File size (" ++ fmtMB1 n ++ "MB) exceeds 25MB limit"), true)
              else ((true, "File is valid"), true)
            | none => ((true, "File is valid"), true)

/-- The inbound request context: the value `request.headers.get('Authorization')`
would return, when a request object is present at all. -/
structure ReqCtx where
  authorization : Option String
deriving DecidableEq

/-- Python truthiness of an optional string: `None` and `""` are falsy. -/
def isFalsy : Option String → Bool
  | none => true
  | some s => s == ""

/-- Bearer token available from the request context: embeds the guard
`auth_header and auth_header.startswith('Bearer ')` and the slice
`auth_header[7:]` (app.py lines 117-120 / 188-191). -/
def bearerOf (request : Option ReqCtx) : Option String :=
  match request with
  | none => none
  | some req =>
    match req.authorization with
    | none => none
    | some ah =>
      if ah != "" && strStartsWith ah "Bearer " then some (strDropChars ah 7) else none

/-- Credential resolution shared verbatim by both entry points (app.py
lines 113-120 and 184-191): `os.environ.get("GROQ_API_KEY", api_key)`
first, and only when that value is falsy, the bearer token from the
`Authorization` header. -/
def resolveKey (envKey api_key : Option String) (request : Option ReqCtx) : Option String :=
  let actual : Option String :=
    match envKey with
    | some e => some e
    | none => api_key
  if isFalsy actual then
    match bearerOf request with
    | some tok => some tok
    | none => actual
  else actual

/-- The missing-credential message returned by both entry points. -/
def missingKeyMsg : String :=
  "Error: Please provide your Groq API key or set the GROQ_API_KEY environment variable or include in Authorization header"

/-- Outcome the Groq transcription step would produce: a transcript text,
an exception while reading the local bytes before the call, or an
exception raised by the call itself. -/
inductive TrOutcome where
  | success (text : String)
  | openFail (msg : String)
  | callFail (msg : String)
deriving DecidableEq

/-- Outcome of the streaming `requests.get` download: success, a raised
`requests.exceptions.RequestException`, or any other exception (for
example an I/O error while writing the chunks). -/
inductive DlOutcome where
  | success
  | reqException (msg : String)
  | ioError (msg : String)
deriving DecidableEq

/-- Observable trace of one `transcribe_audio` call. -/
structure LocalRun where
  result : String
  isTranscript : Bool
  validationRun : Bool
  transcribeCalled : Bool
  filenameUsed : Option String
deriving DecidableEq

/-- Observable trace of one `transcribe_audio_from_url` call.
`tempRemains` records whether the temporary download file still exists
on the filesystem when the call returns. -/
structure UrlRun where
  result : String
  isTranscript : Bool
  validationRun : Bool
  headIssued : Bool
  getIssued : Bool
  transcribeCalled : Bool
  filenameUsed : Option String
  tempRemains : Bool
deriving DecidableEq

/-- Embedding of `transcribe_audio` (app.py lines 79-148).  The
header-logging block (lines 100-111) only prints and is omitted; the
credential block is `resolveKey`; every raised exception is caught by
the enclosing `try` and rendered as `"Error: " + str(e)`. -/
def transcribe_audio (audio_file : Option LocalFile) (api_key : Option String)
    (request : Option ReqCtx) (envKey : Option String) (tr : TrOutcome) : LocalRun :=
  let actual := resolveKey envKey api_key request
  if isFalsy actual then
    { result := missingKeyMsg, isTranscript := false, validationRun := false,
      transcribeCalled := false, filenameUsed := none }
  else
    match audio_file with
    | none =>
      { result := "Error: Please upload an audio or video file", isTranscript := false,
        validationRun := false, transcribeCalled := false, filenameUsed := none }
    | some f =>
      let v := validate_file (some f)
      if !v.1 then
        { result := "Error: " ++ v.2, isTranscript := false, validationRun := true,
          transcribeCalled := false, filenameUsed := none }
      else
        match tr with
        | .openFail m =>
          { result := "Error: " ++ m, isTranscript := false, validationRun := true,
            transcribeCalled := false, filenameUsed := none }
        | .callFail m =>
          { result := "Error: " ++ m, isTranscript := false, validationRun := true,
            transcribeCalled := true, filenameUsed := some (basename f.name) }
        | .success text =>
          { result := text, isTranscript := true, validationRun := true,
            transcribeCalled := true, filenameUsed := some (basename f.name) }

/-- Embedding of `transcribe_audio_from_url` (app.py lines 150-242).
`tempfile.NamedTemporaryFile(delete=False)` creates the backing file
before the download starts; the `try/finally` that unlinks it begins
only after the download block, so a download failure leaves the file
behind while the two later failure modes are cleaned up.  A raised
`RequestException` is caught by the dedicated handler
(`"Error downloading file: " + str(e)`), everything else by the generic
one (`"Error: " + str(e)`). -/
def transcribe_audio_from_url (audio_url : String) (api_key : Option String)
    (request : Option ReqCtx) (envKey : Option String)
    (probe : ProbeOutcome) (dl : DlOutcome) (tr : TrOutcome) : UrlRun :=
  let actual := resolveKey envKey api_key request
  if isFalsy actual then
    { result := missingKeyMsg, isTranscript := false, validationRun := false,
      headIssued := false, getIssued := false, transcribeCalled := false,
      filenameUsed := none, tempRemains := false }
  else if audio_url == "" || pyStrip audio_url == "" then
    { result := "Error: Please provide a URL to an audio or video file", isTranscript := false,
      validationRun := false, headIssued := false, getIssued := false,
      transcribeCalled := false, filenameUsed := none, tempRemains := false }
  else
    let vr := validate_url_file audio_url probe
    if !vr.1.1 then
      { result := "Error: " ++ vr.1.2, isTranscript := false, validationRun := true,
        headIssued := vr.2, getIssued := false, transcribeCalled := false,
        filenameUsed := none, tempRemains := false }
    else
      match dl with
      | .reqException m =>
        { result := "Error downloading file: " ++ m, isTranscript := false,
          validationRun := true, headIssued := vr.2, getIssued := true,
          transcribeCalled := false, filenameUsed := none, tempRemains := true }
      | .ioError m =>
        { result := "Error: " ++ m, isTranscript := false,
          validationRun := true, headIssued := vr.2, getIssued := true,
          transcribeCalled := false, filenameUsed := none, tempRemains := true }
      | .success =>
        let fn0 := basename (urlparse audio_url).path
        let fn := if fn0 == "" then "audio_from_url" else fn0
        match tr with
        | .openFail m =>
          { result := "Error: " ++ m, isTranscript := false,
            validationRun := true, headIssued := vr.2, getIssued := true,
            transcribeCalled := false, filenameUsed := none, tempRemains := false }
        | .callFail m =>
          { result := "Error: " ++ m, isTranscript := false,
            validationRun := true, headIssued := vr.2, getIssued := true,
            transcribeCalled := true, filenameUsed := some fn, tempRemains := false }
        | .success text =>
          { result := text, isTranscript := true,
            validationRun := true, headIssued := vr.2, getIssued := true,
            transcribeCalled := true, filenameUsed := some fn, tempRemains := false }

theorem str_append_assoc (a b c : String) : a ++ b ++ c = a ++ (b ++ c) := by
  apply String.ext
  simp [String.data_append, List.append_assoc]

theorem err_split (m : String) : ∃ r, ("Error: " ++ m) = "Error" ++ r :=
  ⟨": " ++ m, by
    have h : ("Error: " : String) = "Error" ++ ": " := by decide
    rw [h, str_append_assoc]⟩

theorem err_dl_split (m : String) : ∃ r, ("Error downloading file: " ++ m) = "Error" ++ r :=
  ⟨" downloading file: " ++ m, by
    have h : ("Error downloading file: " : String) = "Error" ++ " downloading file: " := by
      decide
    rw [h, str_append_assoc]⟩

theorem err_missing_split : ∃ r, missingKeyMsg = "Error" ++ r :=
  ⟨": Please provide your Groq API key or set the GROQ_API_KEY environment variable or include in Authorization header",
    by decide⟩

theorem resolveKey_falsy (envKey xo : Option String) (ro : Option ReqCtx)
    (henv : isFalsy envKey = true) (hxo : isFalsy xo = true)
    (hb : isFalsy (bearerOf ro) = true) :
    isFalsy (resolveKey envKey xo ro) = true := by
  unfold resolveKey
  cases envKey with
  | some e =>
    cases hbo : bearerOf ro with
    | none => simp [henv, hbo]
    | some tok => rw [hbo] at hb; simp [henv, hbo, hb]
  | none =>
    cases hbo : bearerOf ro with
    | none => simp [hxo, hbo]
    | some tok => rw [hbo] at hb; simp [hxo, hbo, hb]

end App

namespace App

/-- C1: the claim's precedence (environment, then header token, then
explicit value) fails on the code: with no environment value, an inbound
header `Bearer H` and explicit value `X`, the resolver returns `X`, not
the header token `H`. -/
theorem C1_counterexample :
    resolveKey none (some "X") (some ⟨some "Bearer H"⟩) = some "X"
    ∧ (some "X" : Option String) ≠ some "H" :=
  ⟨by decide, by decide⟩

/-- C1 (amended): credential resolution first takes the environment value
when the variable is set (even when set to the empty string, which then
masks the explicit value), otherwise the caller-supplied explicit value;
only when that choice is empty does it fall back to the bearer token of a
well-formed `Authorization` header (prefix `Bearer ` stripped); it yields
no credential — so the entry points fail with the missing-credential
message — only when this chain produces no non-empty string. -/
theorem C1_amended_resolution (e x ah : String) (xo : Option String) (ro : Option ReqCtx)
    (he : e ≠ "") (hx : x ≠ "")
    (hane : ah ≠ "") (hpre : strStartsWith ah "Bearer " = true) :
    resolveKey (some e) xo ro = some e
  ∧ resolveKey none (some x) ro = some x
  ∧ resolveKey none (some "") (some ⟨some ah⟩) = some (strDropChars ah 7)
  ∧ resolveKey none none (some ⟨some ah⟩) = some (strDropChars ah 7)
  ∧ resolveKey (some "") xo (some ⟨some ah⟩) = some (strDropChars ah 7)
  ∧ isFalsy (resolveKey none (some "") none) = true := by
  have he' : (e == "") = false := beq_eq_false_iff_ne.mpr he
  have hx' : (x == "") = false := beq_eq_false_iff_ne.mpr hx
  have hane' : (ah == "") = false := beq_eq_false_iff_ne.mpr hane
  refine ⟨?_, ?_, ?_, ?_, ?_, by decide⟩
  · simp [resolveKey, isFalsy, he']
  · simp [resolveKey, isFalsy, hx']
  · simp [resolveKey, isFalsy, bearerOf, hane', hpre, hane]
  · simp [resolveKey, isFalsy, bearerOf, hane', hpre, hane]
  · simp [resolveKey, isFalsy, bearerOf, hane', hpre, hane]

/-- Witness for C1_amended_resolution at `E` / `X` / `Bearer H`. -/
theorem C1_amended_resolution_witness :
    resolveKey (some "E") (some "X") (some ⟨some "Bearer H"⟩) = some "E"
  ∧ resolveKey none (some "X") (some ⟨some "Bearer H"⟩) = some "X"
  ∧ resolveKey none (some "") (some ⟨some "Bearer H"⟩) = some "H"
  ∧ resolveKey none none (some ⟨some "Bearer H"⟩) = some "H"
  ∧ resolveKey (some "") (some "X") (some ⟨some "Bearer H"⟩) = some "H"
  ∧ isFalsy (resolveKey none (some "") none) = true := by
  have e7 : strDropChars "Bearer H" 7 = "H" := by decide
  have h := C1_amended_resolution "E" "X" "Bearer H" (some "X") (some ⟨some "Bearer H"⟩)
    (by decide) (by decide) (by decide) (by decide)
  rw [e7] at h
  exact h

/-- C10: the claim fails in one corner: with the environment variable set
to the empty string and a non-empty explicit value `X`, the code still
consults the header and resolves the bearer token `H` instead of `X`. -/
theorem C10_counterexample :
    resolveKey (some "") (some "X") (some ⟨some "Bearer H"⟩) = some "H"
    ∧ (some "H" : Option String) ≠ some "X" :=
  ⟨by decide, by decide⟩

/-- C10 (amended): the bearer token is consulted only when the
environment-or-explicit choice is empty; with the environment variable
unset and a non-empty explicit value, the explicit value is the
credential used and the request context is irrelevant, even when a
well-formed `Bearer ` header is present; but an environment variable set
to the empty string masks the explicit value and falls through to the
header token. -/
theorem C10_explicit_over_header (x ah : String) (xo : Option String)
    (hx : x ≠ "") (hane : ah ≠ "") (hpre : strStartsWith ah "Bearer " = true)
    (ro ro' : Option ReqCtx) :
    resolveKey none (some x) ro = some x
  ∧ resolveKey none (some x) ro = resolveKey none (some x) ro'
  ∧ resolveKey (some "") xo (some ⟨some ah⟩) = some (strDropChars ah 7) := by
  have hx' : (x == "") = false := beq_eq_false_iff_ne.mpr hx
  have hane' : (ah == "") = false := beq_eq_false_iff_ne.mpr hane
  refine ⟨?_, ?_, ?_⟩
  · simp [resolveKey, isFalsy, hx']
  · simp [resolveKey, isFalsy, hx']
  · simp [resolveKey, isFalsy, bearerOf, hane', hpre, hane]

/-- C3: the claim fails for sources that also exceed the size ceiling:
`validate_file` checks size first, so a 26 MiB file with a non-allowed
extension is rejected with the size message, which does not mention
"Invalid file type". -/
theorem C3_counterexample :
    (validate_file (some ⟨"big.txt", 26 * 1024 * 1024⟩)).1 = false
  ∧ mentions (validate_file (some ⟨"big.txt", 26 * 1024 * 1024⟩)).2 "Invalid file type" = false
  ∧ mentions (validate_file (some ⟨"big.txt", 26 * 1024 * 1024⟩)).2 "exceeds 25MB limit" = true :=
  ⟨by decide, by decide, by decide⟩

/-- C3 (amended): every local source whose extension (case-insensitively)
is outside the allow-list is rejected (`accepted = false`); the reason
mentions "Invalid file type" whenever the size is within the 25 MiB
ceiling, the size check taking priority above it. -/
theorem C3_invalid_type_rejected (name : String) (size : Nat)
    (hext : valid_extensions.contains (lowerStr (splitext name).2) = false) :
    (validate_file (some ⟨name, size⟩)).1 = false
  ∧ (size ≤ 25 * 1024 * 1024 →
      mentions (validate_file (some ⟨name, size⟩)).2 "Invalid file type" = true) := by
  have hmsg : mentions
      ("Invalid file type. Supported formats: " ++ String.intercalate ", " valid_extensions)
      "Invalid file type" = true := by decide
  have hmem : lowerStr (splitext name).2 ∉ valid_extensions := by simpa using hext
  by_cases hs : size > 25 * 1024 * 1024
  · exact ⟨by simp [validate_file, hs], fun hle => absurd hs (by omega)⟩
  · exact ⟨by simp [validate_file, hs, hmem], fun _ => by simp [validate_file, hs, hmem, hmsg]⟩

/-- Witness for C3_invalid_type_rejected on a small text file. -/
theorem C3_invalid_type_rejected_witness :
    (validate_file (some ⟨"notes.txt", 1000⟩)).1 = false
  ∧ (1000 ≤ 25 * 1024 * 1024 →
      mentions (validate_file (some ⟨"notes.txt", 1000⟩)).2 "Invalid file type" = true) :=
  C3_invalid_type_rejected "notes.txt" 1000 (by decide)

/-- C6: every local source strictly larger than 25 MiB is rejected with
the size message (carrying the measured size rendered in MB and the
25MB limit); at or below the ceiling the outcome is independent of the
size, so nothing is rejected for size. -/
theorem C6_size_ceiling (name : String) (size : Nat) :
    (25 * 1024 * 1024 < size →
       (validate_file (some ⟨name, size⟩)).1 = false
     ∧ (validate_file (some ⟨name, size⟩)).2
         = "File size (" ++ fmtMB1 size ++ "MB) exceeds 25MB limit")
  ∧ (size ≤ 25 * 1024 * 1024 →
       validate_file (some ⟨name, size⟩) = validate_file (some ⟨name, 0⟩)) := by
  constructor
  · intro h
    constructor <;> simp [validate_file, h]
  · intro h
    have h' : ¬ (25 * 1024 * 1024 < size) := by omega
    have h0 : ¬ (25 * 1024 * 1024 < (0 : Nat)) := by omega
    simp [validate_file, h', h0]

/-- Witness for C6_size_ceiling at 26 MiB (oversize) and 1000 bytes. -/
theorem C6_size_ceiling_witness :
    ((validate_file (some ⟨"big.mp3", 26 * 1024 * 1024⟩)).1 = false
   ∧ (validate_file (some ⟨"big.mp3", 26 * 1024 * 1024⟩)).2
       = "File size (" ++ fmtMB1 (26 * 1024 * 1024) ++ "MB) exceeds 25MB limit")
  ∧ validate_file (some ⟨"small.mp3", 1000⟩) = validate_file (some ⟨"small.mp3", 0⟩) :=
  ⟨(C6_size_ceiling "big.mp3" (26 * 1024 * 1024)).1 (by decide),
   (C6_size_ceiling "small.mp3" 1000).2 (by decide)⟩

/-- C4: a URL whose parsed path carries no allow-listed extension is
rejected by `validate_url_file` on a path that never consults the HEAD
probe, whatever that probe would have answered. -/
theorem C4_format_check_before_probe (url : String) (probe : ProbeOutcome)
    (hext : valid_extensions.contains (lowerStr (splitext (urlparse url).path).2) = false) :
    (validate_url_file url probe).1.1 = false
  ∧ (validate_url_file url probe).2 = false := by
  have hmem : lowerStr (splitext (urlparse url).path).2 ∉ valid_extensions := by simpa using hext
  constructor <;>
  · simp only [validate_url_file]
    split
    · rfl
    · split
      · rfl
      · split
        · rfl
        · simp [hmem]

/-- Witness for C4_format_check_before_probe on an extensionless URL. -/
theorem C4_format_check_before_probe_witness :
    (validate_url_file "https://example.com/talk" (.success 200 none)).1.1 = false
  ∧ (validate_url_file "https://example.com/talk" (.success 200 none)).2 = false :=
  C4_format_check_before_probe "https://example.com/talk" (.success 200 none) (by decide)

/-- C7: a remote source whose HEAD probe reports a content-length above
25 MiB makes the orchestrator return the oversize error without ever
starting the streaming download (no GET, no temp file, no transcription
call); a probe reporting no content-length leaves validation
provisionally accepting the source. -/
theorem C7_oversize_before_download (audio_url : String) (api_key : Option String)
    (request : Option ReqCtx) (envKey : Option String) (n : Nat) (dl : DlOutcome) (tr : TrOutcome)
    (hcred : isFalsy (resolveKey envKey api_key request) = false)
    (hne : (audio_url == "") = false) (hstrip : (pyStrip audio_url == "") = false)
    (hsch : ((urlparse audio_url).scheme == "http" || (urlparse audio_url).scheme == "https") = true)
    (hsch0 : ((urlparse audio_url).scheme == "") = false)
    (hnet : ((urlparse audio_url).netloc == "") = false)
    (hext : valid_extensions.contains (lowerStr (splitext (urlparse audio_url).path).2) = true)
    (hn : 25 * 1024 * 1024 < n) :
    (transcribe_audio_from_url audio_url api_key request envKey
        (.success 200 (some n)) dl tr).result
      = "Error: " ++ ("File size (" ++ fmtMB1 n ++ "MB) exceeds 25MB limit")
  ∧ (transcribe_audio_from_url audio_url api_key request envKey
        (.success 200 (some n)) dl tr).getIssued = false
  ∧ (transcribe_audio_from_url audio_url api_key request envKey
        (.success 200 (some n)) dl tr).transcribeCalled = false
  ∧ (transcribe_audio_from_url audio_url api_key request envKey
        (.success 200 (some n)) dl tr).tempRemains = false
  ∧ (validate_url_file audio_url (.success 200 none)).1 = (true, "File is valid") := by
  have hmem : lowerStr (splitext (urlparse audio_url).path).2 ∈ valid_extensions := by
    simpa using hext
  have hval : validate_url_file audio_url (.success 200 (some n))
      = ((false, "File size (" ++ fmtMB1 n ++ "MB) exceeds 25MB limit"), true) := by
    simp [validate_url_file, hne, hstrip, hsch, hsch0, hnet, hmem, hn]
  have hval2 : validate_url_file audio_url (.success 200 none)
      = ((true, "File is valid"), true) := by
    simp [validate_url_file, hne, hstrip, hsch, hsch0, hnet, hmem]
  refine ⟨?_, ?_, ?_, ?_, by rw [hval2]⟩ <;>
    simp [transcribe_audio_from_url, hcred, hne, hstrip, hval]

/-- Witness for C7_oversize_before_download: a 30 MiB `clip.mp4`. -/
theorem C7_oversize_before_download_witness :
    (transcribe_audio_from_url "https://example.com/clip.mp4" none none (some "k")
        (.success 200 (some (30 * 1024 * 1024))) .success (.success "t")).result
      = "Error: " ++ ("File size (" ++ fmtMB1 (30 * 1024 * 1024) ++ "MB) exceeds 25MB limit")
  ∧ (transcribe_audio_from_url "https://example.com/clip.mp4" none none (some "k")
        (.success 200 (some (30 * 1024 * 1024))) .success (.success "t")).getIssued = false
  ∧ (transcribe_audio_from_url "https://example.com/clip.mp4" none none (some "k")
        (.success 200 (some (30 * 1024 * 1024))) .success (.success "t")).transcribeCalled = false
  ∧ (transcribe_audio_from_url "https://example.com/clip.mp4" none none (some "k")
        (.success 200 (some (30 * 1024 * 1024))) .success (.success "t")).tempRemains = false
  ∧ (validate_url_file "https://example.com/clip.mp4" (.success 200 none)).1
      = (true, "File is valid") :=
  C7_oversize_before_download "https://example.com/clip.mp4" none none (some "k")
    (30 * 1024 * 1024) .success (.success "t")
    (by decide) (by decide) (by decide) (by decide) (by decide) (by decide)
    (by decide) (by decide)

/-- Witness for C10_explicit_over_header at `X` / `Bearer H`. -/
theorem C10_explicit_over_header_witness :
    resolveKey none (some "X") (some ⟨some "Bearer H"⟩) = some "X"
  ∧ resolveKey none (some "X") (some ⟨some "Bearer H"⟩) = resolveKey none (some "X") none
  ∧ resolveKey (some "") (some "X") (some ⟨some "Bearer H"⟩) = some "H" := by
  have e7 : strDropChars "Bearer H" 7 = "H" := by decide
  have h := C10_explicit_over_header "X" "Bearer H" (some "X")
    (by decide) (by decide) (by decide) (some ⟨some "Bearer H"⟩) none
  rw [e7] at h
  exact h

/-- C5: when none of the three credential sources (environment variable,
bearer token of the `Authorization` header, explicit value) yields a
non-empty string, both entry points return the missing-credential
message before running any source validation and before any network
activity, for every media source — including an absent or invalid one. -/
theorem C5_missing_credential_first (envKey xo : Option String) (ro : Option ReqCtx)
    (audio_file : Option LocalFile) (audio_url : String)
    (tr tr' : TrOutcome) (probe : ProbeOutcome) (dl : DlOutcome)
    (henv : isFalsy envKey = true) (hxo : isFalsy xo = true)
    (hb : isFalsy (bearerOf ro) = true) :
    (transcribe_audio audio_file xo ro envKey tr).result = missingKeyMsg
  ∧ (transcribe_audio audio_file xo ro envKey tr).validationRun = false
  ∧ (transcribe_audio audio_file xo ro envKey tr).transcribeCalled = false
  ∧ (transcribe_audio_from_url audio_url xo ro envKey probe dl tr').result = missingKeyMsg
  ∧ (transcribe_audio_from_url audio_url xo ro envKey probe dl tr').validationRun = false
  ∧ (transcribe_audio_from_url audio_url xo ro envKey probe dl tr').headIssued = false
  ∧ (transcribe_audio_from_url audio_url xo ro envKey probe dl tr').getIssued = false
  ∧ (transcribe_audio_from_url audio_url xo ro envKey probe dl tr').transcribeCalled = false
  ∧ (transcribe_audio_from_url audio_url xo ro envKey probe dl tr').tempRemains = false := by
  have hkey := resolveKey_falsy envKey xo ro henv hxo hb
  simp [transcribe_audio, transcribe_audio_from_url, hkey]

/-- Witness for C5_missing_credential_first: nothing provided anywhere,
the media source itself absent (local) or invalid-looking (remote). -/
theorem C5_missing_credential_first_witness :
    (transcribe_audio none none none none (.success "t")).result = missingKeyMsg
  ∧ (transcribe_audio none none none none (.success "t")).validationRun = false
  ∧ (transcribe_audio none none none none (.success "t")).transcribeCalled = false
  ∧ (transcribe_audio_from_url "not a url" none none none
        (.success 200 none) .success (.success "t")).result = missingKeyMsg
  ∧ (transcribe_audio_from_url "not a url" none none none
        (.success 200 none) .success (.success "t")).validationRun = false
  ∧ (transcribe_audio_from_url "not a url" none none none
        (.success 200 none) .success (.success "t")).headIssued = false
  ∧ (transcribe_audio_from_url "not a url" none none none
        (.success 200 none) .success (.success "t")).getIssued = false
  ∧ (transcribe_audio_from_url "not a url" none none none
        (.success 200 none) .success (.success "t")).transcribeCalled = false
  ∧ (transcribe_audio_from_url "not a url" none none none
        (.success 200 none) .success (.success "t")).tempRemains = false :=
  C5_missing_credential_first none none none none "not a url" (.success "t") (.success "t")
    (.success 200 none) .success (by decide) (by decide) (by decide)

/-- C2: the code violates the claim on the download-fault path: the
temporary file is created with `delete=False` before the streaming GET,
but the `try/finally` that unlinks it only wraps the transcription step,
so a `RequestException` (or any other error) raised during the download
returns with the file still on disk.  The success and
transcription-fault paths do delete it. -/
theorem C2_download_fault_leaks_tempfile :
    (transcribe_audio_from_url "https://example.com/a.mp3" none none (some "k")
        (.success 200 none) (.reqException "404 Client Error") (.success "t")).result
      = "Error downloading file: 404 Client Error"
  ∧ (transcribe_audio_from_url "https://example.com/a.mp3" none none (some "k")
        (.success 200 none) (.reqException "404 Client Error") (.success "t")).tempRemains = true
  ∧ (transcribe_audio_from_url "https://example.com/a.mp3" none none (some "k")
        (.success 200 none) (.ioError "disk full") (.success "t")).tempRemains = true
  ∧ (transcribe_audio_from_url "https://example.com/a.mp3" none none (some "k")
        (.success 200 none) .success (.success "t")).tempRemains = false
  ∧ (transcribe_audio_from_url "https://example.com/a.mp3" none none (some "k")
        (.success 200 none) .success (.callFail "auth rejected")).tempRemains = false :=
  ⟨by decide, by decide, by decide, by decide, by decide⟩

/-- C8: whenever the transcription step is reached, the filename handed
to the transcription call is the base name of the URL's parsed path —
with the fixed placeholder `audio_from_url` exactly when that base name
is empty — for the remote entry point, and the base name of the
uploaded file's path for the local one. -/
theorem C8_filename_derivation (audio_url : String) (api_key api_key' : Option String)
    (request request' : Option ReqCtx) (envKey envKey' : Option String)
    (probe : ProbeOutcome) (dl : DlOutcome) (tr tr' : TrOutcome) (f : LocalFile)
    (hu : (transcribe_audio_from_url audio_url api_key request envKey probe dl tr).transcribeCalled
            = true)
    (hl : (transcribe_audio (some f) api_key' request' envKey' tr').transcribeCalled = true) :
    (transcribe_audio_from_url audio_url api_key request envKey probe dl tr).filenameUsed
      = some (if basename (urlparse audio_url).path == "" then "audio_from_url"
              else basename (urlparse audio_url).path)
  ∧ (transcribe_audio (some f) api_key' request' envKey' tr').filenameUsed
      = some (basename f.name) := by
  constructor
  · simp only [transcribe_audio_from_url] at hu ⊢
    split at hu <;> simp_all
    split at hu <;> simp_all
    split at hu <;> simp_all
    cases dl <;> simp_all
    cases tr <;> simp_all
  · simp only [transcribe_audio] at hl ⊢
    split at hl <;> simp_all
    split at hl <;> simp_all
    cases tr' <;> simp_all

/-- Witness for C8_filename_derivation: a remote `a.mp3` and a local
upload at `/tmp/pod.mp3`, both reaching the transcription call. -/
theorem C8_filename_derivation_witness :
    (transcribe_audio_from_url "https://example.com/a.mp3" none none (some "k")
        (.success 200 none) .success (.success "t")).filenameUsed
      = some (if basename (urlparse "https://example.com/a.mp3").path == "" then "audio_from_url"
              else basename (urlparse "https://example.com/a.mp3").path)
  ∧ (transcribe_audio (some ⟨"/tmp/pod.mp3", 1000⟩) none none (some "k")
        (.success "t")).filenameUsed = some (basename "/tmp/pod.mp3") :=
  C8_filename_derivation "https://example.com/a.mp3" none none none none (some "k") (some "k")
    (.success 200 none) .success (.success "t") (.success "t") ⟨"/tmp/pod.mp3", 1000⟩
    (by decide) (by decide)

/-- C9: both entry points are total over every combination of oracle
outcomes of the embedded effects: each call yields either the transcript
text produced by a successful transcription (and is marked as such) or a
single string that starts with "Error" — so only that prefix separates
a fault from a transcript. -/
theorem C9_total_error_prefix (audio_file : Option LocalFile) (api_key : Option String)
    (request : Option ReqCtx) (envKey : Option String) (tr tr' : TrOutcome)
    (audio_url : String) (probe : ProbeOutcome) (dl : DlOutcome) :
    (((transcribe_audio audio_file api_key request envKey tr).isTranscript = true
       ∧ ∃ t, tr = .success t
           ∧ (transcribe_audio audio_file api_key request envKey tr).result = t)
     ∨ ((transcribe_audio audio_file api_key request envKey tr).isTranscript = false
       ∧ ∃ r, (transcribe_audio audio_file api_key request envKey tr).result = "Error" ++ r))
  ∧ (((transcribe_audio_from_url audio_url api_key request envKey probe dl tr').isTranscript = true
       ∧ ∃ t, tr' = .success t
           ∧ (transcribe_audio_from_url audio_url api_key request envKey probe dl tr').result = t)
     ∨ ((transcribe_audio_from_url audio_url api_key request envKey probe dl tr').isTranscript
          = false
       ∧ ∃ r, (transcribe_audio_from_url audio_url api_key request envKey probe dl tr').result
           = "Error" ++ r)) := by
  constructor
  · simp only [transcribe_audio]
    split
    · exact Or.inr ⟨rfl, err_missing_split⟩
    · split
      · exact Or.inr ⟨rfl, ⟨": Please upload an audio or video file", by decide⟩⟩
      · split
        · exact Or.inr ⟨rfl, err_split _⟩
        · cases tr with
          | openFail m => exact Or.inr ⟨rfl, err_split m⟩
          | callFail m => exact Or.inr ⟨rfl, err_split m⟩
          | success t => exact Or.inl ⟨rfl, t, rfl, rfl⟩
  · simp only [transcribe_audio_from_url]
    split
    · exact Or.inr ⟨rfl, err_missing_split⟩
    · split
      · exact Or.inr ⟨rfl, ⟨": Please provide a URL to an audio or video file", by decide⟩⟩
      · split
        · exact Or.inr ⟨rfl, err_split _⟩
        · cases dl with
          | reqException m => exact Or.inr ⟨rfl, err_dl_split m⟩
          | ioError m => exact Or.inr ⟨rfl, err_split m⟩
          | success =>
            cases tr' with
            | openFail m => exact Or.inr ⟨rfl, err_split m⟩
            | callFail m => exact Or.inr ⟨rfl, err_split m⟩
            | success t => exact Or.inl ⟨rfl, t, rfl, rfl⟩

end App
